import Mathlib

/-
Verification development for the process lifecycle manager in src/app.py
(a Flask application hosting per-tenant "servers" as supervised OS
processes).  The Python source is shallowly embedded: module-level
mutable state (the processes dict, the per-server config.json files, the
on-disk server directories) becomes an explicit state record, each
route handler or helper becomes a pure function from state to state, and
ambient possibilities of the Python runtime (an exception inside a
try/except block, an OS call that silently fails) become explicit oracle
parameters so that every branch of the source is represented.
-/

namespace SulavHosting

/-- Key of the processes dict in app.py line 21: processes is keyed by
the pair (session username, server name). -/
structure Key where
  user : String
  name : String
deriving DecidableEq, Repr

/-- Association list lookup, modelling dict.get on a Python dict. -/
def lookupKey {K A : Type} [DecidableEq K] (l : List (K × A)) (k : K) : Option A :=
  match l with
  | [] => none
  | (k2, a) :: rest => if k2 = k then some a else lookupKey rest k

/-- Association list removal, modelling dict.pop(key, None). -/
def eraseKey {K A : Type} [DecidableEq K] (l : List (K × A)) (k : K) : List (K × A) :=
  match l with
  | [] => []
  | (k2, a) :: rest => if k2 = k then eraseKey rest k else (k2, a) :: eraseKey rest k

/-- Association list update, modelling dict[key] = value. -/
def insertKey {K A : Type} [DecidableEq K] (l : List (K × A)) (k : K) (a : A) : List (K × A) :=
  (k, a) :: eraseKey l k

/-- List membership test, modelling the Python `in` operator on keys and
os.path.exists on a directory list. -/
def memKey {K : Type} [DecidableEq K] (l : List K) (k : K) : Bool :=
  match l with
  | [] => false
  | k2 :: rest => if k2 = k then true else memKey rest k

/-- Character-list test that pat is a leading block of text, used to build
the substring test below. -/
def charPrefixOf : List Char → List Char → Bool
  | [], _ => true
  | _ :: _, [] => false
  | c :: cs, d :: ds => if c = d then charPrefixOf cs ds else false

/-- Substring containment over character lists, modelling the Python
`pat in text` operator. -/
def charContains : List Char → List Char → Bool
  | [], pat =>
    match pat with
    | [] => true
    | _ :: _ => false
  | c :: cs, pat => if charPrefixOf pat (c :: cs) then true else charContains cs pat

/-- Python `pat in text` on strings. -/
def strContains (text pat : String) : Bool :=
  charContains text.data pat.data

/-- Python str.endswith. -/
def strEndsWith (s suf : String) : Bool :=
  let n := s.data.length
  let m := suf.data.length
  decide (m ≤ n) && decide (s.data.drop (n - m) = suf.data)

/-- Python str.startswith. -/
def strStartsWith (s pre : String) : Bool :=
  decide (s.data.take pre.data.length = pre.data)

/-- Python str.strip (whitespace at both ends). -/
def strTrim (s : String) : String :=
  String.mk (((s.data.dropWhile Char.isWhitespace).reverse.dropWhile Char.isWhitespace).reverse)

/- ----------------------------------------------------------------
   Entrypoint resolver: find_main_file (app.py lines 82-104)
   ---------------------------------------------------------------- -/

/-- The fixed ordered list of canonical entrypoint filenames
(app.py line 85). -/
def common_files : List String :=
  ["main.py", "app.py", "bot.py", "server.py", "index.py", "start.py"]

/-- One file as seen by the os.walk scan: its basename and its text
content. -/
structure PyFile where
  name : String
  content : String
deriving DecidableEq, Repr

/-- A working directory as find_main_file observes it: the set of names
present at the top level (consulted by the os.path.exists checks on the
canonical names), and the sequence of files yielded by os.walk in the
enumeration order the filesystem reports. -/
structure WalkDir where
  rootNames : List String
  walk : List PyFile
deriving DecidableEq, Repr

/-- List membership for strings, modelling os.path.exists against the
top-level names of the directory. -/
def memStr (l : List String) (s : String) : Bool :=
  match l with
  | [] => false
  | t :: rest => if t = s then true else memStr rest s

/-- The run-as-main marker test of app.py line 100: the file content
contains the text __main__ or the text starting with if and a blank
followed by __name__. -/
def has_main_marker (content : String) : Bool :=
  strContains content "__main__" || strContains content "if __name__"

/-- The recursive scan of app.py lines 91-103: walk the files in the
order the filesystem enumeration yields them; a file participates when
its name ends in .py and does not start with an underscore; the first
participating file whose content has the run-as-main marker is returned
by basename. -/
def scan_walk : List PyFile → Option String
  | [] => none
  | f :: rest =>
    if strEndsWith f.name ".py" && !(strStartsWith f.name "_") then
      if has_main_marker f.content then some f.name
      else scan_walk rest
    else scan_walk rest

/-- find_main_file (app.py lines 82-104): first the canonical names in
their fixed order against the top level of the directory, then the
os.walk scan in filesystem enumeration order. -/
def find_main_file (d : WalkDir) : Option String :=
  match common_files.find? (fun c => memStr d.rootNames c) with
  | some c => some c
  | none => scan_walk d.walk

/-- The conjunction of the name conditions of the scan, used to state
the first-match characterization. -/
def is_candidate (f : PyFile) : Bool :=
  (strEndsWith f.name ".py" && !(strStartsWith f.name "_")) && has_main_marker f.content

/-- Strict lexicographic order on character lists, by code point. -/
def charLt : List Char → List Char → Bool
  | [], [] => false
  | [], _ :: _ => true
  | _ :: _, [] => false
  | c :: cs, d :: ds =>
    if c.toNat < d.toNat then true
    else if d.toNat < c.toNat then false
    else charLt cs ds

/-- Strict lexicographic order on file names. -/
def nameLt (a b : String) : Bool := charLt a.data b.data

/-- Insertion step for the lexicographic sort below. -/
def insertFile (f : PyFile) : List PyFile → List PyFile
  | [] => [f]
  | g :: rest => if nameLt f.name g.name then f :: g :: rest else g :: insertFile f rest

/-- Lexicographic sort of the walked files by path name. -/
def sortFiles : List PyFile → List PyFile
  | [] => []
  | f :: rest => insertFile f (sortFiles rest)

/-- Modelled from the spec words for comparison with find_main_file: the
claim asserts that when no canonical name matches, the recursive scan
visits candidate files in deterministic lexicographic-by-path order; this
variant performs the identical scan over the same files sorted
lexicographically by name. -/
def find_main_file_lex (d : WalkDir) : Option String :=
  match common_files.find? (fun c => memStr d.rootNames c) with
  | some c => some c
  | none => scan_walk (sortFiles d.walk)

/- ----------------------------------------------------------------
   Config store on disk: save_server_config (app.py lines 106-110)
   as a sequence of filesystem events, for the atomicity claim.
   ---------------------------------------------------------------- -/

/-- Filesystem events a writer can perform. openTrunc is open(path, w)
which truncates the file; writeData appends the given bytes to the open
file; renameFile is os.rename. -/
inductive FsEvent where
  | makedirs : String → FsEvent
  | openTrunc : String → FsEvent
  | writeData : String → String → FsEvent
  | renameFile : String → String → FsEvent
deriving DecidableEq, Repr

/-- Directory of one server: UPLOAD_FOLDER is the literal servers
(app.py line 17) and paths are joined with the username and the server
name. -/
def dir_path (username server_name : String) : String :=
  "servers/" ++ username ++ "/" ++ server_name

/-- Path of the per-server config record (app.py line 107). -/
def config_path (username server_name : String) : String :=
  dir_path username server_name ++ "/config.json"

/-- save_server_config (app.py lines 106-110) as the sequence of
filesystem events it performs: os.makedirs on the directory, then
open(config_path, w) which truncates in place, then the single
json.dump write of the serialized record.  There is no temporary file
and no rename anywhere in the function. -/
def save_server_config_events (username server_name payload : String) : List FsEvent :=
  [FsEvent.makedirs (dir_path username server_name),
   FsEvent.openTrunc (config_path username server_name),
   FsEvent.writeData (config_path username server_name) payload]

/-- Content of one file in a flat file store. -/
def getFile (fs : List (String × String)) (p : String) : Option String :=
  lookupKey fs p

/-- Effect of one filesystem event on the file store. -/
def applyEvent (fs : List (String × String)) : FsEvent → List (String × String)
  | FsEvent.makedirs _ => fs
  | FsEvent.openTrunc p => insertKey fs p ""
  | FsEvent.writeData p d => insertKey fs p ((getFile fs p).getD "" ++ d)
  | FsEvent.renameFile src dst =>
    match getFile fs src with
    | some c => insertKey (eraseKey fs src) dst c
    | none => fs

/-- Run a sequence of filesystem events on a file store. -/
def runEvents (fs : List (String × String)) : List FsEvent → List (String × String)
  | [] => fs
  | e :: rest => runEvents (applyEvent fs e) rest

/-- True when the event truncates or writes the given path directly. -/
def touches_directly (p : String) : FsEvent → Bool
  | FsEvent.openTrunc q => decide (q = p)
  | FsEvent.writeData q _ => decide (q = p)
  | _ => false

/-- True when the event renames some file onto the given path. -/
def renames_onto (p : String) : FsEvent → Bool
  | FsEvent.renameFile _ dst => decide (dst = p)
  | _ => false

/-- Modelled from the spec words: a write has write-temp-then-rename
semantics for a final path when no event truncates or writes that path
directly and some rename lands on it, so the final path changes content
in one atomic step. -/
def write_temp_then_rename (p : String) (tr : List FsEvent) : Bool :=
  tr.all (fun e => !(touches_directly p e)) && tr.any (renames_onto p)

/- ----------------------------------------------------------------
   Supervisor state machine: the module-level processes dict, the
   per-server config.json records, the server directories and the set
   of alive OS processes become one explicit state record.
   ---------------------------------------------------------------- -/

/-- One persisted server record (the config.json dict).  Fields that a
Python dict may simply lack (pid, started_at, name, display_name,
safe_name) are Options with none for an absent key. -/
structure SConfig where
  name : Option String
  display_name : Option String
  safe_name : Option String
  ctype : String
  port : Nat
  status : String
  pid : Option Nat
  created_at : String
  started_at : Option String
deriving DecidableEq, Repr

/-- The safe default record returned by load_server_config on a missing
or unparseable file (app.py line 120). -/
def defaultConfig (now : String) : SConfig :=
  { name := none, display_name := none, safe_name := none, ctype := "web",
    port := 8080, status := "stopped", pid := none, created_at := now,
    started_at := none }

/-- Global state of the manager: the processes dict of app.py line 21
(key to spawned pid), the config.json records keyed by server, the set
of existing server directories, the uploaded files on disk keyed by
server and filename, and the pids of OS processes currently alive. -/
structure St where
  processes : List (Key × Nat)
  configs : List (Key × SConfig)
  dirs : List Key
  files : List ((Key × String) × String)
  osAlive : List Nat
deriving DecidableEq, Repr

/-- load_server_config (app.py lines 112-120): the stored record when
present, the safe default otherwise. -/
def load_server_config (st : St) (now : String) (k : Key) : SConfig :=
  match lookupKey st.configs k with
  | some c => c
  | none => defaultConfig now

/-- save_server_config (app.py lines 106-110) at the state level: the
record keyed by the server is replaced wholesale.  The filesystem event
granularity of the same function is save_server_config_events above. -/
def save_server_config (st : St) (k : Key) (c : SConfig) : St :=
  { st with configs := insertKey st.configs k c }

/-- Remove one pid from the alive set, modelling a successful kill or an
exit. -/
def removePid (l : List Nat) (p : Nat) : List Nat :=
  l.filter (fun q => !(decide (q = p)))

/-- Where an exception of the Python runtime fires inside the try block
of stop_server (app.py lines 260-285).  The body wraps terminate, the
sleeps, poll, kill, the processes.pop and the config load and save in
one try whose except branch returns False; an exception raised by the
terminate/poll/kill calls (for example a signal delivery error) aborts
the body before the pop at line 274, an exception raised by the config
save (for example the directory vanished) aborts it after the pop.
noExc is the run in which nothing raises. -/
inductive StopExc where
  | noExc
  | beforePop
  | afterPop
deriving DecidableEq, Repr

/-- stop_server (app.py lines 256-287).  A missing handle returns True
immediately with nothing changed (lines 258-260 and 287).  With a handle
present: terminate, then kill if still alive, captured by the killWorks
oracle deciding whether the OS process actually dies; then the handle is
popped and the config is rewritten to status stopped with the pid key
removed; True is returned.  The two exception positions return False,
leaving the handle registered when the exception fires before the pop. -/
def stop_server (exc : StopExc) (killWorks : Bool) (now : String) (k : Key) (st : St) :
    Bool × St :=
  match lookupKey st.processes k with
  | none => (true, st)
  | some pid =>
    match exc with
    | StopExc.beforePop => (false, st)
    | StopExc.afterPop =>
      (false, { st with processes := eraseKey st.processes k,
                        osAlive := if killWorks then removePid st.osAlive pid else st.osAlive })
    | StopExc.noExc =>
      let st1 : St := { st with processes := eraseKey st.processes k,
                                osAlive := if killWorks then removePid st.osAlive pid else st.osAlive }
      let cfg := load_server_config st1 now k
      (true, save_server_config st1 k { cfg with status := "stopped", pid := none })

/-- Where an exception of the Python runtime fires inside the inner try
block of start_server (app.py lines 207-250) after a successful Popen.
The try wraps the spawn, the registration processes[key] = p at line
218, the config save at line 224 and the monitor Thread start at line
243; its except branch at lines 247-250 returns False.  An exception
raised by the config save (for example the server directory vanished
under a concurrent delete) aborts the body after the registration with
the config not yet persisted; an exception raised by the thread start
aborts it after both the registration and the save.  In both cases
False is returned with the key still registered.  noExc is the run in
which nothing raises. -/
inductive StartExc where
  | noExc
  | atSave
  | atThreadStart
deriving DecidableEq, Repr

/-- start_server (app.py lines 122-254), the spawn/register/persist part.
The staging and entrypoint steps of lines 136-204 touch only the working
directory and the log and are modelled separately by resolve_entrypoint
below; this function captures lines 128-133 and 206-254: the directory
existence re-check, the spawn whose OS-level success is the spawnOk
oracle — a failing Popen raises, registering nothing and returning
False — then the assignment processes[key] = p, the config save with
status running, the spawned pid and the started_at timestamp, the
monitor thread start, and the return of True; the two post-registration
exception positions of the same try block, captured by the StartExc
oracle, instead return False with the key left registered (and with the
config already saved on the thread-start position). -/
def start_server (spawnOk : Bool) (sexc : StartExc) (newPid : Nat) (now : String) (k : Key)
    (st : St) : Bool × St :=
  if memKey st.dirs k then
    if spawnOk then
      let st1 : St := { st with processes := insertKey st.processes k newPid,
                                osAlive := newPid :: st.osAlive }
      match sexc with
      | StartExc.atSave => (false, st1)
      | StartExc.atThreadStart =>
        let cfg := load_server_config st now k
        (false, save_server_config st1 k
          { cfg with status := "running", pid := some newPid, started_at := some now })
      | StartExc.noExc =>
        let cfg := load_server_config st now k
        (true, save_server_config st1 k
          { cfg with status := "running", pid := some newPid, started_at := some now })
    else (false, st)
  else (false, st)

/-- Outcome of the start route. -/
inductive StartResult where
  | notFound
  | alreadyRunning
  | ok
  | failed
deriving DecidableEq, Repr

/-- server_action with action start (app.py lines 555-574): a 404
not-found error when the server directory does not exist, then a 400
already-running error when the processes dict holds the key, then
start_server decides between the success and the generic failure
response. -/
def server_action_start (spawnOk : Bool) (sexc : StartExc) (newPid : Nat) (now : String)
    (k : Key) (st : St) : StartResult × St :=
  if memKey st.dirs k then
    if (lookupKey st.processes k).isSome then (StartResult.alreadyRunning, st)
    else if (start_server spawnOk sexc newPid now k st).1 then
      (StartResult.ok, (start_server spawnOk sexc newPid now k st).2)
    else (StartResult.failed, (start_server spawnOk sexc newPid now k st).2)
  else (StartResult.notFound, st)

/-- server_action with action restart (app.py lines 587-598): stop with
its result ignored, a sleep, then start_server directly with no
directory or registry re-check. -/
def server_action_restart (exc : StopExc) (sexc : StartExc) (killWorks spawnOk : Bool)
    (newPid : Nat) (now : String) (k : Key) (st : St) : StartResult × St :=
  let st1 := (stop_server exc killWorks now k st).2
  if (start_server spawnOk sexc newPid now k st1).1 then
    (StartResult.ok, (start_server spawnOk sexc newPid now k st1).2)
  else (StartResult.failed, (start_server spawnOk sexc newPid now k st1).2)

/-- force_delete_directory (app.py lines 25-35), instrumented with the
number of rmtree attempts actually made.  The loop body runs up to
max_retries times: when the path exists it calls shutil.rmtree with
ignore_errors True — which never raises and whose real effect is the
rmtreeWorks oracle — and returns True immediately without checking that
the directory is gone; when the path does not exist the body does
nothing and the loop continues to exhaustion, returning False.  The
except branch with its sleep is reachable only if os.path.exists itself
raises, so rmtree is never attempted twice.  Result: (returned flag,
whether the directory still exists, rmtree attempts made). -/
def force_delete_loop (rmtreeWorks : Bool) : Nat → Bool → Bool × Bool × Nat
  | 0, dirExists => (false, dirExists, 0)
  | Nat.succ n, dirExists =>
    if dirExists then (true, !rmtreeWorks, 1)
    else force_delete_loop rmtreeWorks n dirExists

/-- force_delete_directory with the default max_retries of 5. -/
def force_delete_directory (rmtreeWorks dirExists : Bool) : Bool × Bool × Nat :=
  force_delete_loop rmtreeWorks 5 dirExists

/-- Outcome of the delete route. -/
inductive DelResult where
  | ok
  | failedDir
  | notFoundD
deriving DecidableEq, Repr

/-- Remove every uploaded file belonging to one server. -/
def eraseFilesOf (fs : List ((Key × String) × String)) (k : Key) :
    List ((Key × String) × String) :=
  fs.filter (fun e => !(decide (e.1.1 = k)))

/-- Remove one directory from the directory list. -/
def removeDir (l : List Key) (k : Key) : List Key :=
  l.filter (fun d => !(decide (d = k)))

/-- server_action with action delete (app.py lines 600-631): stop_server
with its return value ignored, a sleep, then — when the server directory
exists — force_delete_directory; on its True flag the directory content
is gone exactly when rmtree really worked, the key is popped from the
processes dict if still present, and success is reported; on its False
flag a 400 error is reported; a missing directory reports a 404. -/
def server_action_delete (exc : StopExc) (killWorks rmtreeWorks : Bool) (now : String)
    (k : Key) (st : St) : DelResult × St :=
  let st1 := (stop_server exc killWorks now k st).2
  if memKey st1.dirs k then
    if (force_delete_directory rmtreeWorks (memKey st1.dirs k)).1 then
      let st2 : St :=
        if rmtreeWorks then
          { st1 with dirs := removeDir st1.dirs k,
                     configs := eraseKey st1.configs k,
                     files := eraseFilesOf st1.files k }
        else st1
      (DelResult.ok, { st2 with processes := eraseKey st2.processes k })
    else (DelResult.failedDir, st1)
  else (DelResult.notFoundD, st1)

/-- Execution context of a piece of code touching the Flask session
proxy: inside a request handler the session carries the logged-in
username; in a plain background thread there is no request context and
dereferencing the proxy raises RuntimeError, modelled as none. -/
inductive SessionCtx where
  | request : String → SessionCtx
  | thread : SessionCtx
deriving DecidableEq, Repr

/-- Dereference of session with the username key under the given
context. -/
def session_username : SessionCtx → Option String
  | SessionCtx.request u => some u
  | SessionCtx.thread => none

/-- monitor_process (app.py lines 227-243), the body of the daemon
thread started after a successful spawn.  It runs after proc.wait()
returns, so the supervised process has already exited.  First the key is
popped from the processes dict (lines 230-231).  Then line 233 reads
session with the username key — but the thread body executes long after
the request that spawned it has finished, under SessionCtx.thread, where
the Flask proxy raises RuntimeError: the thread dies there and the
config rewrite of lines 234-236 never runs.  The some branch records
what the remaining lines would do if a username were available. -/
def monitor_process (ctx : SessionCtx) (now : String) (k : Key) (st : St) : St :=
  let st1 : St := { st with processes := eraseKey st.processes k }
  match session_username ctx with
  | none => st1
  | some u =>
    let k2 : Key := ⟨u, k.name⟩
    let cfg := load_server_config st1 now k2
    save_server_config st1 k2 { cfg with status := "stopped", pid := none }

/- ----------------------------------------------------------------
   Entrypoint resolution with the placeholder fallback inside
   start_server (app.py lines 164-184), and the create action of the
   dashboard route (app.py lines 470-503).
   ---------------------------------------------------------------- -/

/-- The placeholder program text written by app.py lines 170-183 when no
entrypoint is found. -/
def placeholder_content : String :=
  "\nfrom flask import Flask\nimport time\n\napp = Flask(__name__)\n\n@app.route(\x27/\x27)\ndef home():\n    return f\"<h1>Sulav Hosting Test Server</h1><p>Running at \x7btime.ctime()\x7d</p>\"\n\nif __name__ == \x27__main__\x27:\n    app.run(host=\x270.0.0.0\x27, port=5000)\n"

/-- app.py lines 164-184: find_main_file on the working directory; when
it returns None, the file test_server.py is written with the placeholder
content unless a file of that name already exists, and the name
test_server.py is used as the entrypoint.  The result is the chosen
entrypoint name together with the working directory as left on disk. -/
def resolve_entrypoint (d : WalkDir) : String × WalkDir :=
  match find_main_file d with
  | some f => (f, d)
  | none =>
    if memStr d.rootNames "test_server.py" then ("test_server.py", d)
    else ("test_server.py",
      ⟨d.rootNames ++ ["test_server.py"],
       d.walk ++ [⟨"test_server.py", placeholder_content⟩]⟩)

/-- The filesystem-safe name of app.py line 477: blanks and both slashes
become underscores. -/
def safe_name (s : String) : String :=
  String.mk (s.data.map (fun c =>
    if c = ' ' || c = '/' || c = '\\' then '_' else c))

/-- Port parsing of app.py line 489: the digits when the field is a
nonempty digit string, 8080 otherwise. -/
def parse_port (s : String) : Nat :=
  if !s.data.isEmpty && s.data.all Char.isDigit then
    s.data.foldl (fun acc c => acc * 10 + (c.toNat - 48)) 0
  else 8080

/-- The create_server branch of the dashboard route (app.py lines
470-503).  The submitted name is stripped; an empty name does nothing.
Otherwise the safe name keys the server; when its directory already
exists the whole body — directory creation, initial config save, upload
save — is skipped with no error, the route falling through to the
normal page render.  When the directory is new it is created, the
initial record is saved, and an uploaded file is stored as server.zip
when its filename ends in .zip and under its own filename otherwise.
The Option String component is the error reported to the caller, which
this branch never produces. -/
def create_server (userName rawName serverType portStr now : String)
    (upload : Option (String × String)) (st : St) : Option String × St :=
  let server_name := strTrim rawName
  if server_name = "" then (none, st)
  else
    let sname := safe_name server_name
    let k : Key := ⟨userName, sname⟩
    if memKey st.dirs k then (none, st)
    else
      let cfg : SConfig :=
        { name := some server_name, display_name := some server_name,
          safe_name := some sname, ctype := serverType,
          port := parse_port portStr, status := "stopped", pid := none,
          created_at := now, started_at := none }
      let st1 : St := { st with dirs := k :: st.dirs,
                                configs := insertKey st.configs k cfg }
      match upload with
      | none => (none, st1)
      | some (fname, content) =>
        if fname = "" then (none, st1)
        else if strEndsWith fname ".zip" then
          (none, { st1 with files := insertKey st1.files (k, "server.zip") content })
        else
          (none, { st1 with files := insertKey st1.files (k, fname) content })

/-- Concrete file content carrying the run-as-main marker, used by the
concrete evaluations below. -/
def mark_text : String :=
  "import sys\n\nif __name__ == \x27__main__\x27:\n    run()\n"

/-- Concrete persisted record of a running server, used by the concrete
evaluations below. -/
def cfgRunning : SConfig :=
  { name := some "web1", display_name := some "web1", safe_name := some "web1",
    ctype := "web", port := 8080, status := "running", pid := some 42,
    created_at := "t0", started_at := some "t1" }

/- ----------------------------------------------------------------
   Helper lemmas about the association list operations.
   ---------------------------------------------------------------- -/

theorem lookupKey_insert_self {K A : Type} [DecidableEq K] (l : List (K × A)) (k : K) (a : A) :
    lookupKey (insertKey l k a) k = some a := by
  simp [insertKey, lookupKey]

theorem lookupKey_erase_self {K A : Type} [DecidableEq K] (l : List (K × A)) (k : K) :
    lookupKey (eraseKey l k) k = none := by
  induction l with
  | nil => rfl
  | cons p rest ih =>
    cases p with
    | mk k2 a =>
      by_cases h : k2 = k
      · simp [eraseKey, h, ih]
      · simp [eraseKey, lookupKey, h, ih]

theorem memStr_append_self (l : List String) (s : String) :
    memStr (l ++ [s]) s = true := by
  induction l with
  | nil => simp [memStr]
  | cons t rest ih =>
    by_cases h : t = s
    · simp [memStr, h]
    · simp [memStr, h, ih]

theorem empty_append_str (s : String) : "" ++ s = s := rfl

/-- The scan of find_main_file returns the first file of the walk, in
walk order, that is a candidate. -/
theorem scan_walk_first (pre post : List PyFile) (f : PyFile)
    (hpre : ∀ g ∈ pre, is_candidate g = false) (hf : is_candidate f = true) :
    scan_walk (pre ++ f :: post) = some f.name := by
  induction pre with
  | nil =>
    simp only [List.nil_append, scan_walk]
    cases hn : (strEndsWith f.name ".py" && !(strStartsWith f.name "_")) with
    | false => simp [is_candidate, hn] at hf
    | true =>
      have hm : has_main_marker f.content = true := by
        simpa [is_candidate, hn] using hf
      simp [hn, hm]
  | cons g rest ih =>
    have hg : is_candidate g = false := hpre g (by simp)
    have ih2 := ih (fun x hx => hpre x (by simp [hx]))
    simp only [List.cons_append, scan_walk]
    cases hn : (strEndsWith g.name ".py" && !(strStartsWith g.name "_")) with
    | false => simp [hn, ih2]
    | true =>
      have hm : has_main_marker g.content = false := by
        simpa [is_candidate, hn] using hg
      simp [hn, hm, ih2]

/-- The state component of stop_server on the pre-pop exception path is
untouched in both branches. -/
theorem stop_beforePop_state (killWorks : Bool) (now : String) (k : Key) (st : St) :
    (stop_server StopExc.beforePop killWorks now k st).2 = st := by
  cases hp : lookupKey st.processes k <;> simp [stop_server, hp]

/-- The exception-free run of stop_server always leaves the processes
dict without the key. -/
theorem stop_noexc_clears (killWorks : Bool) (now : String) (k : Key) (st : St) :
    lookupKey (stop_server StopExc.noExc killWorks now k st).2.processes k = none := by
  cases hp : lookupKey st.processes k with
  | none => simp [stop_server, hp]
  | some pid => simp [stop_server, hp, save_server_config, lookupKey_erase_self]

/- ----------------------------------------------------------------
   Claim theorems.
   ---------------------------------------------------------------- -/

/-- C1: whenever the start route returns success, the processes dict
already holds the spawned pid under the (tenant, server) key at that
moment, and the persisted config records status running with the spawned
pid and the started_at timestamp; in particular the lookup a stop issued
immediately afterwards performs observes a handle instead of the
already-stopped absent case. -/
theorem c1_start_registers (spawnOk : Bool) (sexc : StartExc) (newPid : Nat) (now : String)
    (k : Key) (st : St)
    (h : (server_action_start spawnOk sexc newPid now k st).1 = StartResult.ok) :
    lookupKey (server_action_start spawnOk sexc newPid now k st).2.processes k = some newPid ∧
    (lookupKey (server_action_start spawnOk sexc newPid now k st).2.configs k).map
      (fun c => (c.status, c.pid, c.started_at)) =
      some ("running", some newPid, some now) := by
  cases hd : memKey st.dirs k with
  | false => simp [server_action_start, hd] at h
  | true =>
    cases hs : (lookupKey st.processes k).isSome with
    | true => simp [server_action_start, hd, hs] at h
    | false =>
      cases hsp : spawnOk with
      | false => simp [server_action_start, start_server, hd, hs, hsp] at h
      | true =>
        cases hsx : sexc with
        | atSave => simp [server_action_start, start_server, hd, hs, hsp, hsx] at h
        | atThreadStart => simp [server_action_start, start_server, hd, hs, hsp, hsx] at h
        | noExc =>
          constructor
          · simp [server_action_start, start_server, hd, hs, hsp, hsx, save_server_config,
              lookupKey_insert_self]
          · simp [server_action_start, start_server, hd, hs, hsp, hsx, save_server_config,
              lookupKey_insert_self]

/-- C1 witness: a concrete successful start on a fresh state registers
pid 7 and persists the running record. -/
theorem c1_witness :
    lookupKey (server_action_start true StartExc.noExc 7 "t0" ⟨"alice", "web1"⟩
        ⟨[], [], [⟨"alice", "web1"⟩], [], []⟩).2.processes ⟨"alice", "web1"⟩ = some 7 ∧
    (lookupKey (server_action_start true StartExc.noExc 7 "t0" ⟨"alice", "web1"⟩
        ⟨[], [], [⟨"alice", "web1"⟩], [], []⟩).2.configs ⟨"alice", "web1"⟩).map
      (fun c => (c.status, c.pid, c.started_at)) = some ("running", some 7, some "t0") :=
  c1_start_registers true StartExc.noExc 7 "t0" ⟨"alice", "web1"⟩
    ⟨[], [], [⟨"alice", "web1"⟩], [], []⟩ (by decide)

/-- C5: stop on a key with no registered handle returns success with the
state untouched, and a second stop gives the same outcome, for every
exception oracle and kill oracle. -/
theorem c5_idempotent_stop (exc : StopExc) (killWorks : Bool) (now : String) (k : Key) (st : St)
    (h : lookupKey st.processes k = none) :
    stop_server exc killWorks now k st = (true, st) ∧
    stop_server exc killWorks now k (stop_server exc killWorks now k st).2 = (true, st) := by
  have h1 : stop_server exc killWorks now k st = (true, st) := by
    simp [stop_server, h]
  exact ⟨h1, by rw [h1]; exact h1⟩

/-- C5 witness: a concrete stop on an empty registry succeeds twice. -/
theorem c5_witness :
    stop_server StopExc.noExc true "t0" ⟨"alice", "web1"⟩ ⟨[], [], [], [], []⟩ =
      (true, ⟨[], [], [], [], []⟩) ∧
    stop_server StopExc.noExc true "t0" ⟨"alice", "web1"⟩
        (stop_server StopExc.noExc true "t0" ⟨"alice", "web1"⟩ ⟨[], [], [], [], []⟩).2 =
      (true, ⟨[], [], [], [], []⟩) :=
  c5_idempotent_stop StopExc.noExc true "t0" ⟨"alice", "web1"⟩ ⟨[], [], [], [], []⟩ (by decide)

/-- C6 counterexample: with the server directory absent while a handle
is registered for the key, the start route fails with the not-found
error and not with the already-running error, refuting the claimed
equivalence between an AlreadyRunning failure and a registered handle. -/
theorem c6_counterexample :
    lookupKey (⟨[(⟨"alice", "web1"⟩, 42)], [], [], [], [42]⟩ : St).processes
      ⟨"alice", "web1"⟩ = some 42 ∧
    (server_action_start true StartExc.noExc 7 "t0" ⟨"alice", "web1"⟩
        ⟨[(⟨"alice", "web1"⟩, 42)], [], [], [], [42]⟩).1 = StartResult.notFound ∧
    ¬((server_action_start true StartExc.noExc 7 "t0" ⟨"alice", "web1"⟩
        ⟨[(⟨"alice", "web1"⟩, 42)], [], [], [], [42]⟩).1 = StartResult.alreadyRunning) :=
  ⟨by decide, by decide, by decide⟩

/-- C6 amended: start fails with NotFound exactly when the server
directory is absent; it fails with AlreadyRunning exactly when the
directory exists and a handle is registered, the directory check taking
precedence; on either failure no process is spawned and the state is
unchanged. -/
theorem c6_amended (spawnOk : Bool) (sexc : StartExc) (newPid : Nat) (now : String)
    (k : Key) (st : St) :
    ((server_action_start spawnOk sexc newPid now k st).1 = StartResult.notFound ↔
      memKey st.dirs k = false) ∧
    ((server_action_start spawnOk sexc newPid now k st).1 = StartResult.alreadyRunning ↔
      (memKey st.dirs k = true ∧ (lookupKey st.processes k).isSome = true)) ∧
    ((server_action_start spawnOk sexc newPid now k st).1 = StartResult.notFound ∨
      (server_action_start spawnOk sexc newPid now k st).1 = StartResult.alreadyRunning →
      (server_action_start spawnOk sexc newPid now k st).2 = st) := by
  cases hd : memKey st.dirs k with
  | false => simp [server_action_start, hd]
  | true =>
    cases hs : (lookupKey st.processes k).isSome with
    | true => simp [server_action_start, hd, hs]
    | false =>
      cases hsp : spawnOk with
      | false => simp [server_action_start, start_server, hd, hs, hsp]
      | true =>
        cases hsx : sexc <;>
          simp [server_action_start, start_server, hd, hs, hsp, hsx]

/-- C6 witness: on a state with no directory the failing start leaves
the state unchanged. -/
theorem c6_witness :
    (server_action_start true StartExc.noExc 7 "t0" ⟨"alice", "web1"⟩
        ⟨[], [], [], [], []⟩).2 = ⟨[], [], [], [], []⟩ :=
  (c6_amended true StartExc.noExc 7 "t0" ⟨"alice", "web1"⟩
      ⟨[], [], [], [], []⟩).2.2 (Or.inl (by decide))

/-- C2 counterexample: a completion path of stop that does not remove
the registry entry.  With a handle registered, an exception raised by
the terminate/kill sequence before the pop makes stop_server report
failure while the processes dict still holds the key. -/
theorem c2_counterexample :
    (stop_server StopExc.beforePop true "t0" ⟨"alice", "web1"⟩
        ⟨[(⟨"alice", "web1"⟩, 42)], [], [⟨"alice", "web1"⟩], [], [42]⟩).1 = false ∧
    lookupKey (stop_server StopExc.beforePop true "t0" ⟨"alice", "web1"⟩
        ⟨[(⟨"alice", "web1"⟩, 42)], [], [⟨"alice", "web1"⟩], [], [42]⟩).2.processes
      ⟨"alice", "web1"⟩ = some 42 :=
  ⟨by decide, by decide⟩

/-- C2 amended: the claimed all-paths-clear guarantee fails on two
exception paths and holds elsewhere.  An exception-free stop and a stop
whose exception fires after the pop both leave the processes dict
without the key (even when the process survives the forceful kill); but
a stop whose exception fires during the terminate/kill sequence before
the pop returns failure with the entry still registered.  A delete that
reports success leaves the dict without the key.  A start whose spawn
itself fails registers nothing and leaves the state unchanged; but a
start — also as the second half of a restart — whose config save or
monitor-thread start raises after the registration returns failure with
the spawned pid left registered under the key.  A restart whose spawn
fails leaves the dict without the key.  In every case a later
exception-free stop clears the entry, so no key is permanently blocked:
the system loses the all-paths guarantee but keeps recoverability. -/
theorem c2_amended (killWorks : Bool) (now : String) (k : Key) (st : St)
    (exc : StopExc) (sexc : StartExc) (rmtreeWorks : Bool) (newPid : Nat) :
    lookupKey (stop_server StopExc.noExc killWorks now k st).2.processes k = none ∧
    lookupKey (stop_server StopExc.afterPop killWorks now k st).2.processes k = none ∧
    lookupKey (stop_server StopExc.noExc killWorks now k
        (stop_server StopExc.beforePop killWorks now k st).2).2.processes k = none ∧
    ((server_action_delete exc killWorks rmtreeWorks now k st).1 = DelResult.ok →
      lookupKey (server_action_delete exc killWorks rmtreeWorks now k st).2.processes k = none) ∧
    (start_server false sexc newPid now k st).2 = st ∧
    (memKey st.dirs k = true →
      (start_server true StartExc.atSave newPid now k st).1 = false ∧
      lookupKey (start_server true StartExc.atSave newPid now k st).2.processes k =
        some newPid) ∧
    lookupKey (stop_server StopExc.noExc killWorks now k
        (start_server true sexc newPid now k st).2).2.processes k = none ∧
    lookupKey (server_action_restart StopExc.noExc sexc killWorks false newPid now k
        st).2.processes k = none := by
  refine ⟨stop_noexc_clears killWorks now k st, ?_, ?_, ?_, ?_, ?_, ?_, ?_⟩
  · cases hp : lookupKey st.processes k with
    | none => simp [stop_server, hp]
    | some pid => simp [stop_server, hp, lookupKey_erase_self]
  · rw [stop_beforePop_state]
    exact stop_noexc_clears killWorks now k st
  · intro hdel
    simp only [server_action_delete] at hdel ⊢
    cases hd : memKey (stop_server exc killWorks now k st).2.dirs k with
    | false => simp [hd] at hdel
    | true => simp [hd, force_delete_directory, force_delete_loop, lookupKey_erase_self]
  · simp [start_server]
  · intro hd
    constructor
    · simp [start_server, hd]
    · simp [start_server, hd, lookupKey_insert_self]
  · exact stop_noexc_clears killWorks now k _
  · simp only [server_action_restart, start_server]
    cases hd : memKey (stop_server StopExc.noExc killWorks now k st).2.dirs k with
    | false => simp [hd, stop_noexc_clears]
    | true => simp [hd, stop_noexc_clears]

/-- C2 witness: a concrete successful delete leaves no registry entry,
and a concrete start whose config save raises after the registration
returns failure with pid 7 left registered. -/
theorem c2_amended_witness :
    lookupKey (server_action_delete StopExc.noExc true true "t0" ⟨"alice", "web1"⟩
        ⟨[(⟨"alice", "web1"⟩, 42)], [], [⟨"alice", "web1"⟩], [], [42]⟩).2.processes
      ⟨"alice", "web1"⟩ = none ∧
    ((start_server true StartExc.atSave 7 "t0" ⟨"alice", "web1"⟩
        ⟨[], [], [⟨"alice", "web1"⟩], [], []⟩).1 = false ∧
      lookupKey (start_server true StartExc.atSave 7 "t0" ⟨"alice", "web1"⟩
          ⟨[], [], [⟨"alice", "web1"⟩], [], []⟩).2.processes ⟨"alice", "web1"⟩ = some 7) :=
  ⟨(c2_amended true "t0" ⟨"alice", "web1"⟩
      ⟨[(⟨"alice", "web1"⟩, 42)], [], [⟨"alice", "web1"⟩], [], [42]⟩
      StopExc.noExc StartExc.noExc true 7).2.2.2.1 (by decide),
   (c2_amended true "t0" ⟨"alice", "web1"⟩ ⟨[], [], [⟨"alice", "web1"⟩], [], []⟩
      StopExc.noExc StartExc.noExc true 7).2.2.2.2.2.1 (by decide)⟩

/-- C3: evaluation of the monitor body at its failing input.  After a
started process with pid 42 exits on its own, the monitor thread pops
the handle from the processes dict and then dies dereferencing the
request-bound Flask session outside any request context, so the
persisted record is left exactly as it was — status running with the
stale pid — and is never reconciled to stopped, contradicting the
claimed convergence. -/
theorem c3_monitor_eval :
    monitor_process SessionCtx.thread "t2" ⟨"alice", "web1"⟩
        ⟨[(⟨"alice", "web1"⟩, 42)], [(⟨"alice", "web1"⟩, cfgRunning)],
         [⟨"alice", "web1"⟩], [], []⟩ =
      ⟨[], [(⟨"alice", "web1"⟩, cfgRunning)], [⟨"alice", "web1"⟩], [], []⟩ ∧
    cfgRunning.status = "running" ∧ cfgRunning.pid = some 42 :=
  ⟨by decide, by decide, by decide⟩

/-- C4 counterexample: the event sequence save_server_config performs
does not have write-temp-then-rename semantics for the config path — it
truncates and writes the final path directly and performs no rename. -/
theorem c4_counterexample :
    write_temp_then_rename (config_path "alice" "web1")
      (save_server_config_events "alice" "web1" "payload") = false := by
  decide

/-- C4 amended: save_server_config writes the record in place: its event
sequence is exactly makedirs, an in-place truncating open of the config
path, and one direct write; after the truncating open and before the
write completes a concurrent reader of the config path observes the
empty file — neither the old record nor the new one — and only after the
final write does it observe the new record. -/
theorem c4_amended (username server_name payload old : String) :
    save_server_config_events username server_name payload =
      [FsEvent.makedirs (dir_path username server_name),
       FsEvent.openTrunc (config_path username server_name),
       FsEvent.writeData (config_path username server_name) payload] ∧
    getFile (runEvents [(config_path username server_name, old)]
        ((save_server_config_events username server_name payload).take 2))
        (config_path username server_name) = some "" ∧
    getFile (runEvents [(config_path username server_name, old)]
        (save_server_config_events username server_name payload))
        (config_path username server_name) = some payload := by
  refine ⟨rfl, ?_, ?_⟩
  · simp [save_server_config_events, runEvents, applyEvent, getFile, insertKey,
      eraseKey, lookupKey]
  · simp [save_server_config_events, runEvents, applyEvent, getFile, insertKey,
      eraseKey, lookupKey, empty_append_str]

/-- C7: evaluation of the delete action at its failing input.  With the
server directory present and rmtree silently failing (its errors are
ignored), the delete route still reports success while the directory
still exists, and force_delete_directory made exactly one rmtree
attempt before returning True — removal is neither verified nor
retried, contradicting the claimed no-survivor guarantee and the
claimed retry-before-failure behavior. -/
theorem c7_delete_eval :
    (server_action_delete StopExc.noExc true false "t0" ⟨"alice", "web1"⟩
        ⟨[], [], [⟨"alice", "web1"⟩], [], []⟩).1 = DelResult.ok ∧
    memKey (server_action_delete StopExc.noExc true false "t0" ⟨"alice", "web1"⟩
        ⟨[], [], [⟨"alice", "web1"⟩], [], []⟩).2.dirs ⟨"alice", "web1"⟩ = true ∧
    force_delete_directory false true = (true, true, 1) :=
  ⟨by decide, by decide, by decide⟩

/-- C8 counterexample: a directory whose filesystem enumeration order is
not lexicographic.  Both top-level files carry the run-as-main marker
and neither is a canonical name; the code returns the first file in
enumeration order, b.py, while the lexicographic scan the claim
describes returns a.py. -/
theorem c8_counterexample :
    find_main_file ⟨["b.py", "a.py"],
        [⟨"b.py", mark_text⟩, ⟨"a.py", mark_text⟩]⟩ = some "b.py" ∧
    find_main_file_lex ⟨["b.py", "a.py"],
        [⟨"b.py", mark_text⟩, ⟨"a.py", mark_text⟩]⟩ = some "a.py" ∧
    find_main_file ⟨["b.py", "a.py"], [⟨"b.py", mark_text⟩, ⟨"a.py", mark_text⟩]⟩ ≠
      find_main_file_lex ⟨["b.py", "a.py"], [⟨"b.py", mark_text⟩, ⟨"a.py", mark_text⟩]⟩ :=
  ⟨by decide, by decide, by decide⟩

/-- C8 amended: the resolver first returns the first canonical filename
present at the top level of the working directory, and otherwise
performs the recursive scan in the filesystem enumeration order of
os.walk — not in lexicographic order — returning the first file in that
order that ends in .py, does not start with an underscore, and contains
a run-as-main marker; two runs return the same file only insofar as the
filesystem reports the same enumeration order.  Stated here: whenever no
canonical name is present and the walk splits as pre ++ f :: post with
every file of pre a non-candidate and f a candidate, the resolver
returns f. -/
theorem c8_scan_order (d : WalkDir) (pre post : List PyFile) (f : PyFile)
    (hroot : common_files.find? (fun c => memStr d.rootNames c) = none)
    (hwalk : d.walk = pre ++ f :: post)
    (hpre : ∀ g ∈ pre, is_candidate g = false)
    (hf : is_candidate f = true) :
    find_main_file d = some f.name := by
  have hs := scan_walk_first pre post f hpre hf
  simp [find_main_file, hroot, hwalk, hs]

/-- C8 witness: a concrete walk where an underscored file and a
non-Python file precede the first candidate. -/
theorem c8_scan_witness :
    find_main_file ⟨["readme.txt"],
        [⟨"_helper.py", mark_text⟩, ⟨"notes.txt", mark_text⟩, ⟨"a.py", mark_text⟩]⟩ =
      some "a.py" :=
  c8_scan_order ⟨["readme.txt"],
      [⟨"_helper.py", mark_text⟩, ⟨"notes.txt", mark_text⟩, ⟨"a.py", mark_text⟩]⟩
    [⟨"_helper.py", mark_text⟩, ⟨"notes.txt", mark_text⟩] [] ⟨"a.py", mark_text⟩
    (by decide) (by decide) (by decide) (by decide)

/-- C9: whenever find_main_file finds no entrypoint in the working
directory, the start path resolves to the single name test_server.py,
that file is present on disk afterwards, and when it was absent it has
been written with the placeholder program content — so entrypoint
resolution yields exactly one file reference and start never fails for
want of an entrypoint. -/
theorem c9_placeholder (d : WalkDir) (h : find_main_file d = none) :
    (resolve_entrypoint d).1 = "test_server.py" ∧
    memStr (resolve_entrypoint d).2.rootNames "test_server.py" = true ∧
    (memStr d.rootNames "test_server.py" = false →
      (resolve_entrypoint d).2.walk = d.walk ++ [⟨"test_server.py", placeholder_content⟩]) := by
  cases ht : memStr d.rootNames "test_server.py" with
  | true =>
    refine ⟨?_, ?_, ?_⟩ <;> simp [resolve_entrypoint, h, ht]
  | false =>
    refine ⟨?_, ?_, ?_⟩
    · simp [resolve_entrypoint, h, ht]
    · simp [resolve_entrypoint, h, ht, memStr_append_self]
    · intro hf
      simp [resolve_entrypoint, h, ht]

/-- C9 witness: the empty working directory resolves to the synthesized
placeholder. -/
theorem c9_witness :
    (resolve_entrypoint ⟨[], []⟩).1 = "test_server.py" ∧
    memStr (resolve_entrypoint ⟨[], []⟩).2.rootNames "test_server.py" = true ∧
    (memStr (⟨[], []⟩ : WalkDir).rootNames "test_server.py" = false →
      (resolve_entrypoint ⟨[], []⟩).2.walk =
        (⟨[], []⟩ : WalkDir).walk ++ [⟨"test_server.py", placeholder_content⟩]) :=
  c9_placeholder ⟨[], []⟩ (by decide)

/-- C10: a create action aimed at a key whose server directory already
exists is a silent no-op — the route reports no error and the state
(existing config record, uploaded files, directories, registry) is
returned entirely unchanged, whatever upload accompanied the request. -/
theorem c10_create_noop (userName rawName serverType portStr now : String)
    (upload : Option (String × String)) (st : St)
    (h : memKey st.dirs ⟨userName, safe_name (strTrim rawName)⟩ = true) :
    create_server userName rawName serverType portStr now upload st = (none, st) := by
  unfold create_server
  by_cases he : strTrim rawName = ""
  · simp [he]
  · simp [he, h]

/-- C10 witness: creating web1 again for alice, with an upload attached,
changes nothing and reports nothing. -/
theorem c10_witness :
    create_server "alice" "web1" "web" "9090" "t5" (some ("x.py", mark_text))
        ⟨[], [(⟨"alice", "web1"⟩, cfgRunning)], [⟨"alice", "web1"⟩], [], []⟩ =
      (none, ⟨[], [(⟨"alice", "web1"⟩, cfgRunning)], [⟨"alice", "web1"⟩], [], []⟩) :=
  c10_create_noop "alice" "web1" "web" "9090" "t5" (some ("x.py", mark_text))
    ⟨[], [(⟨"alice", "web1"⟩, cfgRunning)], [⟨"alice", "web1"⟩], [], []⟩ (by decide)

end SulavHosting
